import Mathlib

/-!
A shallow embedding of the quiz-solver pipeline (quiz_solver.py): the chain
controller's per-iteration transition, question extraction from rendered HTML
(including the base64 deobfuscation step), question interpretation of the
reasoning-service response, format-keyed answer extraction, and the submission
payload / failure handling.  Pure string processing (regular-expression scans,
JSON parsing, base64 and UTF-8 decoding) is translated into executable Lean
functions; external effects (the browser, the reasoning service, the HTTP
transport) enter as explicit inputs.
-/

/- ### Python string helpers -/

/-- ASCII whitespace recognised by Python's default str.strip and by the
regex class backslash-s (the source strings are ASCII; full Unicode
whitespace is not modelled). -/
def pyWs (c : Char) : Bool :=
  c = ' ' || c = '\t' || c = '\n' || c = '\r' || c = '\x0b' || c = '\x0c'

/-- Python str.strip(): remove leading and trailing whitespace. -/
def pyStrip (s : String) : String :=
  String.mk (((s.toList.dropWhile pyWs).reverse.dropWhile pyWs).reverse)

/-- Python str.lower(), modelled per character with the ASCII case map. -/
def pyLower (s : String) : String :=
  String.mk (s.toList.map Char.toLower)

/-- Does the second list start with the first? -/
def startsWithL : List Char → List Char → Bool
  | [], _ => true
  | _ :: _, [] => false
  | n :: ns, h :: hs => n = h && startsWithL ns hs

/-- Python substring test: needle occurs somewhere in hay. -/
def containsSeq (needle : List Char) : List Char → Bool
  | [] => needle.isEmpty
  | c :: rest => startsWithL needle (c :: rest) || containsSeq needle rest

/-- Python expression needle in hay, on strings. -/
def pyIn (needle hay : String) : Bool :=
  containsSeq needle.toList hay.toList

/-- Python slicing s[:n], counted in characters. -/
def takeChars (n : Nat) (s : String) : String :=
  String.mk (s.toList.take n)

/- ### Chain controller (solve_quiz_chain) -/

/-- Result of one run of the per-quiz pipeline (solve_single_quiz):
success is the judge's correct flag, next_url the judge-supplied follow-up
URL, error an optional failure description. -/
structure PipelineResult where
  success : Bool
  next_url : Option String
  error : Option String

/-- The terminal/continuation states of the chain controller, as named by the
spec; in the code they are the branches taken by the while-loop in
solve_quiz_chain. -/
inductive ChainStatus where
  | running (url : String)
  | succeeded
  | failed
  | timedOut
deriving DecidableEq

/-- timedelta(minutes=3) in microseconds, the resolution of a Python
timedelta. -/
def maxTimeMicros : Nat := 180000000

/-- Python truthiness of the optional next_url string (None and the empty
string are falsy). -/
def truthyUrl : Option String → Bool
  | none => false
  | some s => !(s == "")

/-- The string carried by a truthy next_url. -/
def urlText : Option String → String
  | none => ""
  | some s => s

/-- One iteration of the while-loop in solve_quiz_chain, given the elapsed
time (in microseconds) measured at the top of the iteration and the pipeline
result of solve_single_quiz.  The code first breaks when elapsed strictly
exceeds the three-minute budget; otherwise it branches on success and on the
truthiness of next_url, re-checking elapsed < budget before continuing after
an unsuccessful verdict.  A timedOut result abstracts the break taken before
the pipeline runs, so the PipelineResult argument is unused in that case. -/
def solve_quiz_chain_step (elapsedMicros : Nat) (res : PipelineResult) : ChainStatus :=
  if maxTimeMicros < elapsedMicros then ChainStatus.timedOut
  else if res.success then
    if truthyUrl res.next_url then ChainStatus.running (urlText res.next_url)
    else ChainStatus.succeeded
  else
    if truthyUrl res.next_url ∧ elapsedMicros < maxTimeMicros then
      ChainStatus.running (urlText res.next_url)
    else ChainStatus.failed

/- ### JSON values and Python dict-literal semantics -/

/-- The JSON values produced by Python's json.loads: objects are modelled as
key/value lists in insertion order with Python-dict duplicate handling
(later value wins, first position kept); numbers keep the int/float split,
with floats modelled as exact rationals; nan and infvalue stand for the
non-standard NaN / Infinity literals json.loads accepts. -/
inductive Json where
  | null
  | bool (b : Bool)
  | num_int (n : Int)
  | num_float (q : Rat)
  | nan
  | infvalue (neg : Bool)
  | str (s : String)
  | arr (xs : List Json)
  | obj (kvs : List (String × Json))

/-- Membership of a key in a key/value list. -/
def keyMem (kvs : List (String × Json)) (k : String) : Bool :=
  kvs.any (fun p => p.1 == k)

/-- Python dict insertion: overwrite the value at the existing position if
the key is present, else append at the end. -/
def pyDictInsert (kvs : List (String × Json)) (k : String) (v : Json) : List (String × Json) :=
  if keyMem kvs k then kvs.map (fun p => if p.1 == k then (p.1, v) else p)
  else kvs ++ [(k, v)]

/-- Lookup in a key/value list (first occurrence; lists built through
pyDictInsert have unique keys, matching Python dicts). -/
def lookupKv : List (String × Json) → String → Option Json
  | [], _ => none
  | (k0, v) :: rest, k => if k0 == k then some v else lookupKv rest k

/-- Python dict.get(k) on a JSON value: a lookup on objects, None elsewhere. -/
def jlookup : Json → String → Option Json
  | Json.obj kvs, k => lookupKv kvs k
  | _, _ => none

/-- How many entries of a key/value list carry the given key. -/
def countKey (kvs : List (String × Json)) (k : String) : Nat :=
  kvs.countP (fun p => p.1 == k)

/-- Python truthiness of a JSON value. -/
def jsonTruthy : Json → Bool
  | Json.null => false
  | Json.bool b => b
  | Json.num_int n => !(n == 0)
  | Json.num_float q => !(q == 0)
  | Json.nan => true
  | Json.infvalue _ => true
  | Json.str s => !(s == "")
  | Json.arr xs => !xs.isEmpty
  | Json.obj kvs => !kvs.isEmpty

/- ### json.loads -/

/-- JSON whitespace (the only characters json.loads skips between tokens). -/
def jWsChar (c : Char) : Bool :=
  c = ' ' || c = '\t' || c = '\n' || c = '\r'

/-- Skip JSON whitespace. -/
def jSkipWs (cs : List Char) : List Char := cs.dropWhile jWsChar

/-- Hexadecimal digit value. -/
def hexVal (c : Char) : Option Nat :=
  if '0' ≤ c ∧ c ≤ '9' then some (c.toNat - '0'.toNat)
  else if 'a' ≤ c ∧ c ≤ 'f' then some (c.toNat - 'a'.toNat + 10)
  else if 'A' ≤ c ∧ c ≤ 'F' then some (c.toNat - 'A'.toNat + 10)
  else none

/-- Four hex digits. -/
def hex4 (cs : List Char) : Option (Nat × List Char) :=
  match cs with
  | h1 :: h2 :: h3 :: h4 :: rest => do
    let a ← hexVal h1
    let b ← hexVal h2
    let c ← hexVal h3
    let d ← hexVal h4
    some ((((a * 16 + b) * 16 + c) * 16 + d : Nat), rest)
  | _ => none

/-- The single-character JSON string escapes. -/
def simpleEscape (e : Char) : Option Char :=
  if e = '\x22' then some '\x22'
  else if e = '\\' then some '\\'
  else if e = '/' then some '/'
  else if e = 'b' then some '\x08'
  else if e = 'f' then some '\x0c'
  else if e = 'n' then some '\n'
  else if e = 'r' then some '\r'
  else if e = 't' then some '\t'
  else none

/-- Body of a JSON string after the opening quote: returns the decoded
characters and the input after the closing quote.  Surrogate pairs in
backslash-u escapes are combined as json.loads does; lone surrogates (which
Python can hold in a str but a Lean Char cannot) are modelled as a parse
failure. -/
def parseJStringAux : Nat → List Char → Option (List Char × List Char)
  | 0, _ => none
  | _, [] => none
  | fuel + 1, c :: rest =>
    if c = '\x22' then some ([], rest)
    else if c = '\\' then
      match rest with
      | [] => none
      | e :: rest2 =>
        match simpleEscape e with
        | some ch => do
          let (s, r) ← parseJStringAux fuel rest2
          some (ch :: s, r)
        | none =>
          if e = 'u' then do
            let (n, rest3) ← hex4 rest2
            if 0xD800 ≤ n ∧ n ≤ 0xDBFF then
              match rest3 with
              | b1 :: b2 :: rest4 =>
                if b1 = '\\' ∧ b2 = 'u' then do
                  let (m, rest5) ← hex4 rest4
                  if 0xDC00 ≤ m ∧ m ≤ 0xDFFF then do
                    let (s, r) ← parseJStringAux fuel rest5
                    some (Char.ofNat (0x10000 + (n - 0xD800) * 0x400 + (m - 0xDC00)) :: s, r)
                  else none
                else none
              | _ => none
            else if 0xDC00 ≤ n ∧ n ≤ 0xDFFF then none
            else do
              let (s, r) ← parseJStringAux fuel rest3
              some (Char.ofNat n :: s, r)
          else none
    else if c.toNat < 0x20 then none
    else do
      let (s, r) ← parseJStringAux fuel rest
      some (c :: s, r)

/-- ASCII digit test. -/
def isDigitCh (c : Char) : Bool := '0' ≤ c && c ≤ '9'

/-- Digits to a natural number. -/
def digitsToNat (ds : List Char) : Nat :=
  ds.foldl (fun acc c => acc * 10 + (c.toNat - '0'.toNat)) 0

/-- Optional exponent part [eE][+-]?digits; consumed only when complete,
exactly as the number regular expression of Python's json decoder. -/
def parseJExp (cs : List Char) : Option (Bool × List Char) × List Char :=
  match cs with
  | c :: r =>
    if c = 'e' ∨ c = 'E' then
      let (eneg, r2) :=
        match r with
        | '+' :: r3 => (false, r3)
        | '-' :: r3 => (true, r3)
        | _ => (false, r)
      let d := r2.takeWhile isDigitCh
      if d.isEmpty then (none, cs) else (some (eneg, d), r2.drop d.length)
    else (none, cs)
  | [] => (none, cs)

/-- Exact rational value of a decimal literal (Python's float rounds this to
the nearest IEEE double; the rounding is not modelled). -/
def decToRat (neg : Bool) (ipart fpart : List Char) (eopt : Option (Bool × List Char)) : Rat :=
  let base : Rat := (digitsToNat (ipart ++ fpart) : Rat) / ((10 : Rat) ^ fpart.length)
  let scaled :=
    match eopt with
    | none => base
    | some (eneg, ds) =>
      if eneg then base / ((10 : Rat) ^ digitsToNat ds)
      else base * ((10 : Rat) ^ digitsToNat ds)
  if neg then -scaled else scaled

/-- JSON number at the head of the input, following the json decoder's
number regular expression: -?(0|[1-9][0-9]*)(.[0-9]+)?([eE][+-]?[0-9]+)?,
with maximal munch and optional groups simply left unconsumed when
incomplete. -/
def parseJNumber (cs : List Char) : Option (Json × List Char) :=
  let (neg, cs1) :=
    match cs with
    | '-' :: r => (true, r)
    | _ => (false, cs)
  match cs1 with
  | [] => none
  | d0 :: _ =>
    if !isDigitCh d0 then none
    else
      let ipart := if d0 = '0' then ['0'] else cs1.takeWhile isDigitCh
      let rest1 := cs1.drop ipart.length
      let (fpart, rest2) :=
        match rest1 with
        | '.' :: r =>
          let f := r.takeWhile isDigitCh
          if f.isEmpty then (([] : List Char), rest1) else (f, r.drop f.length)
        | _ => (([] : List Char), rest1)
      let (eopt, rest3) := parseJExp rest2
      if fpart.isEmpty ∧ eopt = none then
        some (Json.num_int (if neg then -(digitsToNat ipart : Int) else (digitsToNat ipart : Int)), rest3)
      else
        some (Json.num_float (decToRat neg ipart fpart eopt), rest3)

mutual

/-- JSON value at the head of the input (after optional whitespace), with the
remaining input; fuel bounds the recursion depth and is chosen generously by
json_loads. -/
def parseJValue : Nat → List Char → Option (Json × List Char)
  | 0, _ => none
  | fuel + 1, cs0 =>
    let cs := jSkipWs cs0
    match cs with
    | [] => none
    | c :: rest =>
      if c = '\x22' then do
        let (s, r) ← parseJStringAux (rest.length + 1) rest
        some (Json.str (String.mk s), r)
      else if c = '\x7b' then parseJMembers fuel rest true []
      else if c = '[' then parseJItems fuel rest true []
      else if startsWithL ("null".toList) cs then some (Json.null, cs.drop 4)
      else if startsWithL ("true".toList) cs then some (Json.bool true, cs.drop 4)
      else if startsWithL ("false".toList) cs then some (Json.bool false, cs.drop 5)
      else if startsWithL ("NaN".toList) cs then some (Json.nan, cs.drop 3)
      else if startsWithL ("Infinity".toList) cs then some (Json.infvalue false, cs.drop 8)
      else if startsWithL ("-Infinity".toList) cs then some (Json.infvalue true, cs.drop 9)
      else parseJNumber cs

/-- Members of a JSON object after the opening brace; first marks that no
member has been read yet (so a closing brace is only accepted when the object
is empty or follows a member, never after a comma); duplicate keys follow
Python dict semantics through pyDictInsert. -/
def parseJMembers : Nat → List Char → Bool → List (String × Json) → Option (Json × List Char)
  | 0, _, _, _ => none
  | fuel + 1, cs0, first, acc =>
    let cs := jSkipWs cs0
    match cs with
    | [] => none
    | c :: rest =>
      if first ∧ c = '\x7d' then some (Json.obj acc, rest)
      else if c = '\x22' then do
        let (k, r1) ← parseJStringAux (rest.length + 1) rest
        match jSkipWs r1 with
        | ':' :: r3 => do
          let (v, r4) ← parseJValue fuel r3
          let acc2 := pyDictInsert acc (String.mk k) v
          match jSkipWs r4 with
          | ',' :: r6 => parseJMembers fuel r6 false acc2
          | '\x7d' :: r6 => some (Json.obj acc2, r6)
          | _ => none
        | _ => none
      else none

/-- Items of a JSON array after the opening bracket; first as in
parseJMembers. -/
def parseJItems : Nat → List Char → Bool → List Json → Option (Json × List Char)
  | 0, _, _, _ => none
  | fuel + 1, cs0, first, acc =>
    let cs := jSkipWs cs0
    match cs with
    | [] => none
    | c :: _ =>
      if first ∧ c = ']' then some (Json.arr acc.reverse, cs.drop 1)
      else do
        let (v, r1) ← parseJValue fuel cs
        match jSkipWs r1 with
        | ',' :: r3 => parseJItems fuel r3 false (v :: acc)
        | ']' :: r3 => some (Json.arr (v :: acc).reverse, r3)
        | _ => none

end

/-- Python json.loads: parse one JSON document and require only whitespace
after it; None models a raised ValueError. -/
def json_loads (s : String) : Option Json := do
  let cs := s.toList
  let (v, rest) ← parseJValue (2 * cs.length + 4) cs
  if (jSkipWs rest).isEmpty then some v else none

/- ### Regular-expression scans from quiz_solver.py -/

/-- ASCII digit test used by the scans. -/
def isDigitSc (c : Char) : Bool := isDigitCh c

/-- One match of the numeric-token pattern -?[0-9]+[.]?[0-9]* anchored at the
head of the input: optional minus sign, one or more digits, then optionally a
dot followed by any number of digits; returns the token and the remaining
input.  The pattern needs no backtracking: every quantifier after the
mandatory digit run can match the empty string. -/
def matchNumAt (cs : List Char) : Option (List Char × List Char) :=
  let (sign, cs1) :=
    match cs with
    | '-' :: r => (['-'], r)
    | _ => (([] : List Char), cs)
  let ds := cs1.takeWhile isDigitCh
  if ds.isEmpty then none
  else
    let rest1 := cs1.drop ds.length
    match rest1 with
    | '.' :: r =>
      let fs := r.takeWhile isDigitCh
      some (sign ++ ds ++ '.' :: fs, r.drop fs.length)
    | _ => some (sign ++ ds, rest1)

/-- Left-to-right non-overlapping scan, as re.findall: try a match at every
position, resuming after each match. -/
def findNumbersAux : Nat → List Char → List String
  | 0, _ => []
  | _, [] => []
  | fuel + 1, c :: rest =>
    match matchNumAt (c :: rest) with
    | some (tok, rem) => String.mk tok :: findNumbersAux fuel rem
    | none => findNumbersAux fuel rest

/-- re.findall of the numeric-token pattern over a response string. -/
def findNumbers (s : String) : List String :=
  findNumbersAux (s.toList.length + 1) s.toList

/-- A quote character, the class of the atob pattern. -/
def quoteCh (c : Char) : Bool := c = '\x27' || c = '\x22'

/-- One match of the deobfuscation marker atob(Q...Q) anchored at the head of
the input, where Q is either quote and the captured body is one or more
non-quote characters (the closing quote need not equal the opening one, as in
the source pattern's character classes); returns the captured group and the
remaining input. -/
def matchAtobAt (cs : List Char) : Option (String × List Char) :=
  if startsWithL ("atob(".toList) cs then
    match cs.drop 5 with
    | q1 :: r1 =>
      if quoteCh q1 then
        let body := r1.takeWhile (fun c => !quoteCh c)
        if body.isEmpty then none
        else
          match r1.drop body.length with
          | q2 :: ')' :: rem =>
            if quoteCh q2 then some (String.mk body, rem) else none
          | _ => none
      else none
    | [] => none
  else none

/-- Scan for all atob matches, as re.findall (non-overlapping, left to
right). -/
def atobMatchesAux : Nat → List Char → List String
  | 0, _ => []
  | _, [] => []
  | fuel + 1, c :: rest =>
    match matchAtobAt (c :: rest) with
    | some (tok, rem) => tok :: atobMatchesAux fuel rem
    | none => atobMatchesAux fuel rest

/-- The captured groups of the atob pattern over the page markup. -/
def atobMatches (html : String) : List String :=
  atobMatchesAux (html.toList.length + 1) html.toList

/-- Index of the last character satisfying p. -/
def idxOfLast (p : Char → Bool) (cs : List Char) : Option Nat :=
  match cs.reverse.findIdx? p with
  | some k => some (cs.length - 1 - k)
  | none => none

/-- re.search of a greedy brace-to-brace pattern with DOTALL: the leftmost
match runs from the first opening brace to the last closing brace of the
whole string (greediness makes the dot-star reach the final closing brace);
there is a match exactly when some closing brace follows the first opening
brace. -/
def braceSpan (s : String) : Option String :=
  let cs := s.toList
  match cs.findIdx? (fun c => c = '\x7b'), idxOfLast (fun c => c = '\x7d') cs with
  | some i, some j => if i < j then some (String.mk ((cs.drop i).take (j - i + 1))) else none
  | _, _ => none

/- ### base64.b64decode and bytes.decode("utf-8") -/

/-- Value of a standard base64 alphabet character. -/
def b64Val (c : Char) : Option Nat :=
  if 'A' ≤ c ∧ c ≤ 'Z' then some (c.toNat - 'A'.toNat)
  else if 'a' ≤ c ∧ c ≤ 'z' then some (c.toNat - 'a'.toNat + 26)
  else if '0' ≤ c ∧ c ≤ '9' then some (c.toNat - '0'.toNat + 52)
  else if c = '+' then some 62
  else if c = '/' then some 63
  else none

/-- Membership in the base64 alphabet. -/
def isB64Char (c : Char) : Bool := (b64Val c).isSome

/-- Six-bit groups to bytes: each full quad gives three bytes; a trailing
pair or triple (left by two or one padding signs) gives one or two bytes; a
single leftover sextet is invalid. -/
def sextetsToBytes : List Nat → Option (List Nat)
  | [] => some []
  | [a, b] => some [a * 4 + b / 16]
  | [a, b, c] => some [a * 4 + b / 16, (b % 16) * 16 + c / 4]
  | a :: b :: c :: d :: rest => do
    let tail ← sextetsToBytes rest
    some ((a * 4 + b / 16) :: ((b % 16) * 16 + c / 4) :: ((c % 4) * 64 + d) :: tail)
  | [_] => none

/-- base64.b64decode on text in its default non-strict mode: characters
outside the alphabet are discarded, then the length (a multiple of four with
at most two trailing padding signs) is checked and the six-bit groups are
reassembled into bytes.  Padding signs in other positions, which non-strict
Python treats leniently, are modelled as failure. -/
def b64decodeBytes (s : String) : Option (List Nat) :=
  let kept := s.toList.filter (fun c => isB64Char c || c = '=')
  let pads := (kept.reverse.takeWhile (fun c => c = '=')).length
  let body := kept.take (kept.length - pads)
  if body.any (fun c => c = '=') then none
  else if kept.length % 4 ≠ 0 then none
  else if 2 < pads then none
  else sextetsToBytes (body.filterMap b64Val)

/-- A UTF-8 continuation byte. -/
def contByte (b : Nat) : Bool := 0x80 ≤ b && b ≤ 0xBF

/-- Strict UTF-8 decoding of a byte list (the behaviour of
bytes.decode("utf-8"): overlong forms, surrogates and out-of-range values
are rejected through the second-byte constraints). -/
def utf8DecodeAux : Nat → List Nat → Option (List Char)
  | 0, _ => none
  | _, [] => some []
  | fuel + 1, b :: rest =>
    if b < 0x80 then do
      let t ← utf8DecodeAux fuel rest
      some (Char.ofNat b :: t)
    else if 0xC2 ≤ b ∧ b ≤ 0xDF then
      match rest with
      | c1 :: rest1 =>
        if contByte c1 then do
          let t ← utf8DecodeAux fuel rest1
          some (Char.ofNat ((b - 0xC0) * 64 + (c1 - 0x80)) :: t)
        else none
      | [] => none
    else if 0xE0 ≤ b ∧ b ≤ 0xEF then
      match rest with
      | c1 :: c2 :: rest2 =>
        if (if b = 0xE0 then decide (0xA0 ≤ c1 ∧ c1 ≤ 0xBF)
            else if b = 0xED then decide (0x80 ≤ c1 ∧ c1 ≤ 0x9F)
            else contByte c1) && contByte c2 then do
          let t ← utf8DecodeAux fuel rest2
          some (Char.ofNat ((b - 0xE0) * 4096 + (c1 - 0x80) * 64 + (c2 - 0x80)) :: t)
        else none
      | _ => none
    else if 0xF0 ≤ b ∧ b ≤ 0xF4 then
      match rest with
      | c1 :: c2 :: c3 :: rest3 =>
        if (if b = 0xF0 then decide (0x90 ≤ c1 ∧ c1 ≤ 0xBF)
            else if b = 0xF4 then decide (0x80 ≤ c1 ∧ c1 ≤ 0x8F)
            else contByte c1) && contByte c2 && contByte c3 then do
          let t ← utf8DecodeAux fuel rest3
          some (Char.ofNat ((b - 0xF0) * 262144 + (c1 - 0x80) * 4096 + (c2 - 0x80) * 64 + (c3 - 0x80)) :: t)
        else none
      | _ => none
    else none

/-- UTF-8 decoding of a byte list to a string. -/
def utf8Decode (bs : List Nat) : Option String := do
  let cs ← utf8DecodeAux (bs.length + 1) bs
  some (String.mk cs)

/-- base64.b64decode(payload).decode("utf-8"): None models either
exception. -/
def b64DecodeUtf8 (s : String) : Option String := do
  let bs ← b64decodeBytes s
  utf8Decode bs

/- ### Container fallback patterns of the Question Extractor -/

/-- Match, at the head of the lowercased input, the opening-tag part of a
container pattern: the literal opening, then a run of non-gt characters that
must satisfy the pattern's attribute constraint, then the closing gt;
returns how many characters the whole opening tag spans. -/
def matchOpenTag (lit : List Char) (attrOk : List Char → Bool) (cs : List Char) : Option Nat :=
  if startsWithL lit cs then
    let rest := cs.drop lit.length
    let run := rest.takeWhile (fun c => c ≠ '>')
    if attrOk run then
      if run.length < rest.length then some (lit.length + run.length + 1)
      else none
    else none
  else none

/-- Does word=Q value Q (for two independent quote characters, as the source
pattern's classes allow) start here? -/
def attrAt (word value run : List Char) : Bool :=
  startsWithL word run &&
  (match run.drop word.length with
   | '=' :: q :: r2 =>
     quoteCh q && startsWithL value r2 &&
       (match r2.drop value.length with
        | q2 :: _ => quoteCh q2
        | [] => false)
   | _ => false)

/-- Scan the attribute run for word=QvalueQ at any position (the greedy
non-gt star before it reaches every position through backtracking). -/
def hasAttrScan (word value : List Char) : Nat → List Char → Bool
  | 0, _ => false
  | _, [] => false
  | fuel + 1, c :: rest => attrAt word value (c :: rest) || hasAttrScan word value fuel rest

/-- First index at which the needle occurs (the lazily-minimal group of the
container patterns stops at the first closing literal). -/
def findSubAux (needle : List Char) : Nat → List Char → Nat → Option Nat
  | 0, _, _ => none
  | _, [], _ => none
  | fuel + 1, c :: rest, i =>
    if startsWithL needle (c :: rest) then some i
    else findSubAux needle fuel rest (i + 1)

/-- Match one container pattern at the head of the lowercased input:
opening tag, then the group up to the first closing literal; returns the
group's offset and length. -/
def containerMatchAt (lit : List Char) (attrOk : List Char → Bool) (closeLit : List Char)
    (lowCs : List Char) : Option (Nat × Nat) :=
  match matchOpenTag lit attrOk lowCs with
  | some consumed =>
    let rest := lowCs.drop consumed
    match findSubAux closeLit (rest.length + 1) rest 0 with
    | some j => some (consumed, j)
    | none => none
  | none => none

/-- re.search: try the container pattern at every position, leftmost match
first. -/
def containerSearchAux (lit : List Char) (attrOk : List Char → Bool) (closeLit : List Char) :
    Nat → List Char → Nat → Option (Nat × Nat)
  | 0, _, _ => none
  | fuel + 1, cs, i =>
    match containerMatchAt lit attrOk closeLit cs with
    | some (off, len) => some (i + off, len)
    | none =>
      match cs with
      | [] => none
      | _ :: rest => containerSearchAux lit attrOk closeLit fuel rest (i + 1)

/-- Case-insensitive dotall search of a container pattern over the markup:
matching runs on the per-character lowercased text, and the group is sliced
out of the original at the same character positions. -/
def containerSearch (lit : List Char) (attrOk : List Char → Bool) (closeLit : List Char)
    (html : String) : Option String :=
  let orig := html.toList
  let low := orig.map Char.toLower
  match containerSearchAux lit attrOk closeLit (low.length + 1) low 0 with
  | some (start, len) => some (String.mk ((orig.drop start).take len))
  | none => none

/-- The id="result" attribute constraint of the first fallback pattern. -/
def attrIdResult (run : List Char) : Bool :=
  hasAttrScan ("id".toList) ("result".toList) (run.length + 1) run

/-- The class="question" attribute constraint of the second fallback
pattern. -/
def attrClassQuestion (run : List Char) : Bool :=
  hasAttrScan ("class".toList) ("question".toList) (run.length + 1) run

/-- re.search of the div-with-id-result container pattern. -/
def searchDivResult (html : String) : Option String :=
  containerSearch ("<div".toList) attrIdResult ("</div>".toList) html

/-- re.search of the div-with-class-question container pattern. -/
def searchDivQuestion (html : String) : Option String :=
  containerSearch ("<div".toList) attrClassQuestion ("</div>".toList) html

/-- re.search of the body container pattern. -/
def searchBody (html : String) : Option String :=
  containerSearch ("<body".toList) (fun _ => true) ("</body>".toList) html

/-- re.sub replacing each tag (lt, one or more non-gt characters, gt) by a
single space, scanning left to right and resuming after each match. -/
def stripTagsAux : Nat → List Char → List Char
  | 0, cs => cs
  | _, [] => []
  | fuel + 1, c :: rest =>
    if c = '<' then
      let run := rest.takeWhile (fun x => x ≠ '>')
      if !run.isEmpty && run.length < rest.length then
        ' ' :: stripTagsAux fuel (rest.drop (run.length + 1))
      else c :: stripTagsAux fuel rest
    else c :: stripTagsAux fuel rest

/-- String wrapper for the tag-stripping substitution. -/
def stripTags (s : String) : String :=
  String.mk (stripTagsAux (s.toList.length + 1) s.toList)

/-- re.sub replacing each whitespace run by a single space. -/
def collapseWsAux : Nat → List Char → List Char
  | 0, cs => cs
  | _, [] => []
  | fuel + 1, c :: rest =>
    if pyWs c then ' ' :: collapseWsAux fuel (rest.dropWhile pyWs)
    else c :: collapseWsAux fuel rest

/-- String wrapper for the whitespace-collapsing substitution. -/
def collapseWs (s : String) : String :=
  String.mk (collapseWsAux (s.toList.length + 1) s.toList)

/-- One fallback tier of the extractor: when the container pattern matched,
strip tags, collapse whitespace and trim, and keep the result only when it
is longer than ten characters (the source then returns it; otherwise its
loop moves on to the next pattern). -/
def tierText (g : Option String) : Option String :=
  match g with
  | some inner =>
    if 10 < (pyStrip (collapseWs (stripTags inner))).length then
      some (pyStrip (collapseWs (stripTags inner)))
    else none
  | none => none

/-- The fallback chain of extract_question_from_html after the decode step:
the three container patterns in priority order, then the first 2000
characters of the raw markup. -/
def extractFallback (html : String) : String :=
  match tierText (searchDivResult html) with
  | some t => t
  | none =>
    match tierText (searchDivQuestion html) with
    | some t => t
    | none =>
      match tierText (searchBody html) with
      | some t => t
      | none => takeChars 2000 html

/-- extract_question_from_html: decode the first atob payload when present
and decodable; any decode failure falls through to the container/prefix
fallbacks. -/
def extract_question_from_html (html : String) : String :=
  match (atobMatches html).head? with
  | some m =>
    match b64DecodeUtf8 m with
    | some decoded => decoded
    | none => extractFallback html
  | none => extractFallback html

/- ### Question Interpreter (parse_question) -/

/-- The safe default dict parse_question returns when response handling
fails. -/
def defaultParsedQuestion (question_text : String) : Json :=
  Json.obj [("task_type", Json.str "unknown"),
            ("files_to_download", Json.arr []),
            ("submit_url", Json.null),
            ("answer_format", Json.str "string"),
            ("analysis_required", Json.str question_text),
            ("expected_answer_key", Json.str "answer")]

/-- Response handling of parse_question, with the reasoning-service response
as an explicit input: take the brace span and json-load it, else json-load
the whole response; any load failure is caught and yields the default
dict. -/
def parse_question_response (question_text response : String) : Json :=
  match braceSpan response with
  | some sub =>
    match json_loads sub with
    | some v => v
    | none => defaultParsedQuestion question_text
  | none =>
    match json_loads response with
    | some v => v
    | none => defaultParsedQuestion question_text

/-- The six required ParsedQuestion fields. -/
def requiredFields : List String :=
  ["task_type", "files_to_download", "submit_url", "answer_format",
   "analysis_required", "expected_answer_key"]

/-- Does an interpreter output carry all six required fields? -/
def fullyPopulated (j : Json) : Bool :=
  match j with
  | Json.obj kvs => requiredFields.all (fun k => keyMem kvs k)
  | _ => false

/- ### Answer extraction (extract_answer) -/

/-- The typed value extract_answer returns (a float, int, bool, structured
JSON value, or string). -/
inductive Answer where
  | num_int (n : Int)
  | num_float (q : Rat)
  | bool (b : Bool)
  | json (j : Json)
  | str (s : String)

/-- Is the extracted value numeric? -/
def isNumericAnswer : Answer → Bool
  | Answer.num_int _ => true
  | Answer.num_float _ => true
  | _ => false

/-- Is the extracted value a plain string? -/
def isStrAnswer : Answer → Bool
  | Answer.str _ => true
  | _ => false

/-- Python int() on a numeric token (optional sign, digits). -/
def numTokenToInt : List Char → Int
  | '-' :: ds => -(digitsToNat ds : Int)
  | ds => (digitsToNat ds : Int)

/-- Python float() on a numeric token containing a dot, as the exact decimal
rational (IEEE rounding is not modelled). -/
def numTokenToRat (cs : List Char) : Rat :=
  let (neg, cs1) :=
    match cs with
    | '-' :: r => (true, r)
    | _ => (false, cs)
  let ip := cs1.takeWhile (fun c => c ≠ '.')
  let fp := cs1.drop (ip.length + 1)
  let v : Rat := (digitsToNat (ip ++ fp) : Rat) / ((10 : Rat) ^ fp.length)
  if neg then -v else v

/-- float(num) if the token contains a dot else int(num). -/
def parseNumToken (tok : String) : Answer :=
  if tok.toList.contains '.' then Answer.num_float (numTokenToRat tok.toList)
  else Answer.num_int (numTokenToInt tok.toList)

/-- extract_answer: keyed on the declared answer format; the number branch
takes the last found numeric token, the boolean branch searches the
lowercased response for true or yes, the json branch loads the brace span;
every failing branch falls through to returning the stripped response. -/
def extract_answer (response : String) (answer_format : String) : Answer :=
  if answer_format == "number" then
    match (findNumbers response).getLast? with
    | some num => parseNumToken num
    | none => Answer.str (pyStrip response)
  else if answer_format == "boolean" then
    (if pyIn "true" (pyLower response) || pyIn "yes" (pyLower response) then
      Answer.bool true
    else Answer.bool false)
  else if answer_format == "json" then
    match braceSpan response with
    | some sub =>
      match json_loads sub with
      | some v => Answer.json v
      | none => Answer.str (pyStrip response)
    | none => Answer.str (pyStrip response)
  else Answer.str (pyStrip response)

/- ### Submitter (submit_answer) -/

/-- The JSON body the submitter posts, built with Python dict-literal
semantics: email, secret, the quiz url, and the answer under the caller's
key name; a duplicate key overwrites the earlier value in place. -/
def buildPayload (email secret quiz_url answer_key : String) (answer : Json) :
    List (String × Json) :=
  pyDictInsert
    (pyDictInsert
      (pyDictInsert
        (pyDictInsert [] "email" (Json.str email))
        "secret" (Json.str secret))
      "url" (Json.str quiz_url))
    answer_key answer

/-- submit_answer with the transport (the awaited POST of the payload plus
the JSON decode of the judge response) as an explicit input: a decoded
response is returned as the verdict dict; any exception e is caught and
converted to the literal dict with correct False and the error text under
the key error. -/
def submit_answer (email secret : String) (answer : Json) (quiz_url : String)
    (answer_key : String) (transport : List (String × Json) → Except String Json) : Json :=
  match transport (buildPayload email secret quiz_url answer_key answer) with
  | Except.ok result => result
  | Except.error e => Json.obj [("correct", Json.bool false), ("error", Json.str e)]

/-- result.get("correct", False) with Python truthiness, as read by
solve_single_quiz from the submitter's verdict dict. -/
def verdictCorrect (result : Json) : Bool :=
  match jlookup result "correct" with
  | some v => jsonTruthy v
  | none => false

/-- result.get("reason"), as read by solve_single_quiz. -/
def verdictReason (result : Json) : Option Json :=
  jlookup result "reason"

/-- result.get("url"), as read by solve_single_quiz. -/
def verdictNextUrl (result : Json) : Option Json :=
  jlookup result "url"

/- ### Spec-side definition for the refinement comparison of C9 -/

/-- Modelled from the spec's words (extract the first balanced brace region
of the response), for comparison with the braceSpan the code computes:
from the first opening brace, scan with a depth counter until it returns to
zero. -/
def spec_firstBalancedRegionAux : Nat → Nat → List Char → List Char → Option (List Char)
  | 0, _, _, _ => none
  | _, _, _, [] => none
  | fuel + 1, depth, acc, c :: rest =>
    if c = '\x7b' then spec_firstBalancedRegionAux fuel (depth + 1) (c :: acc) rest
    else if c = '\x7d' then
      if depth = 1 then some ((c :: acc).reverse)
      else spec_firstBalancedRegionAux fuel (depth - 1) (c :: acc) rest
    else spec_firstBalancedRegionAux fuel depth (c :: acc) rest

/-- Modelled from the spec: the first balanced brace-to-brace region. -/
def spec_firstBalancedRegion (s : String) : Option String :=
  let cs := s.toList
  match cs.findIdx? (fun c => c = '\x7b') with
  | some i => (spec_firstBalancedRegionAux (cs.length + 1) 0 [] (cs.drop i)).map String.mk
  | none => none
/- ### Theorems for C1 -/

/-- C1 (counterexample): the claim says any iteration starting with
elapsed greater than or equal to 3 minutes terminates in TIMED_OUT without a
pipeline call, but at elapsed exactly equal to 3 minutes (180000000
microseconds) the code's strict comparison lets the iteration run: with a
correct verdict and no next URL the chain ends in SUCCEEDED, not
TIMED_OUT. -/
theorem solve_quiz_chain_step_boundary_cex :
    solve_quiz_chain_step 180000000 ⟨true, none, none⟩ = ChainStatus.succeeded ∧
    ChainStatus.succeeded ≠ ChainStatus.timedOut := by
  constructor
  · rfl
  · decide

/-- C1 (amended): the per-iteration transition of solve_quiz_chain satisfies
the transition table with a strict timeout bound: if elapsed is strictly
greater than 3 minutes the iteration terminates in TIMED_OUT independently
of any pipeline result; otherwise (correct, next=None) gives SUCCEEDED,
(correct, next=X) continues at X, (incorrect, next=X) continues at X when
elapsed is strictly below 3 minutes and gives FAILED when elapsed equals
exactly 3 minutes, and (incorrect, next=None) gives FAILED. -/
theorem solve_quiz_chain_step_table (elapsed : Nat) (u : String) (err : Option String)
    (hu : u ≠ "") :
    (maxTimeMicros < elapsed →
      ∀ res : PipelineResult, solve_quiz_chain_step elapsed res = ChainStatus.timedOut) ∧
    (elapsed ≤ maxTimeMicros →
      solve_quiz_chain_step elapsed ⟨true, none, err⟩ = ChainStatus.succeeded ∧
      solve_quiz_chain_step elapsed ⟨true, some u, err⟩ = ChainStatus.running u ∧
      (elapsed < maxTimeMicros →
        solve_quiz_chain_step elapsed ⟨false, some u, err⟩ = ChainStatus.running u) ∧
      (elapsed = maxTimeMicros →
        solve_quiz_chain_step elapsed ⟨false, some u, err⟩ = ChainStatus.failed) ∧
      solve_quiz_chain_step elapsed ⟨false, none, err⟩ = ChainStatus.failed) := by
  have hu' : (u == "") = false := by
    exact beq_eq_false_iff_ne.mpr hu
  constructor
  · intro hgt res
    simp [solve_quiz_chain_step, hgt]
  · intro hle
    have hnotgt : ¬ maxTimeMicros < elapsed := by omega
    refine ⟨?_, ?_, ?_, ?_, ?_⟩
    · simp [solve_quiz_chain_step, hnotgt, truthyUrl]
    · simp [solve_quiz_chain_step, hnotgt, truthyUrl, hu', urlText]
    · intro hlt
      simp [solve_quiz_chain_step, hnotgt, truthyUrl, hu', urlText, hlt]
    · intro heq
      simp [solve_quiz_chain_step, hnotgt, truthyUrl, hu', urlText, heq]
    · simp [solve_quiz_chain_step, hnotgt, truthyUrl]

/-- C1 witness: the amended transition table applied at a concrete iteration
(elapsed zero, correct verdict, no next URL) yields SUCCEEDED. -/
theorem solve_quiz_chain_step_table_witness :
    solve_quiz_chain_step 0 ⟨true, none, none⟩ = ChainStatus.succeeded :=
  ((solve_quiz_chain_step_table 0 "x" none (by decide)).2 (by decide)).1

/- ### Theorems for C2 and C3 (number extraction) -/

/-- C2: for every response containing at least one numeric token, the number
rule returns the last token of the findall scan, parsed as a float exactly
when the token contains a decimal point and as an int otherwise. -/
theorem extract_answer_number_last (response num : String)
    (h : (findNumbers response).getLast? = some num) :
    extract_answer response "number" =
      (if num.toList.contains '.' then Answer.num_float (numTokenToRat num.toList)
       else Answer.num_int (numTokenToInt num.toList)) := by
  simp [extract_answer, h, parseNumToken]

/-- C2 witness: the spec example, a response whose numeric tokens are 7, 3
and 42, extracts the last token as the integer 42. -/
theorem extract_answer_number_last_witness :
    extract_answer "Compute: 7, then 3, final: 42" "number" = Answer.num_int 42 := by
  rw [extract_answer_number_last "Compute: 7, then 3, final: 42" "42" (by rfl)]
  rfl

/-- C3 (counterexample): on a response with no numeric token the number rule
does not produce a failure or absent result as claimed: it returns the
stripped response, a value of string type. -/
theorem extract_answer_number_nomatch_cex :
    extract_answer "hello" "number" = Answer.str "hello" ∧
    isStrAnswer (extract_answer "hello" "number") = true := ⟨rfl, rfl⟩

/-- C3 (amended): for every response with no numeric token, the number rule
falls through to the default string rule, returning the trimmed response
text; in particular it never returns a numeric value. -/
theorem extract_answer_number_nomatch (response : String)
    (h : findNumbers response = []) :
    extract_answer response "number" = Answer.str (pyStrip response) ∧
    isNumericAnswer (extract_answer response "number") = false := by
  have h2 : (findNumbers response).getLast? = none := by rw [h]; rfl
  constructor
  · simp [extract_answer, h2]
  · simp [extract_answer, h2, isNumericAnswer]

/-- C3 witness: a concrete tokenless response falls through to the string
rule. -/
theorem extract_answer_number_nomatch_witness :
    extract_answer "no digits here" "number" = Answer.str "no digits here" ∧
    isNumericAnswer (extract_answer "no digits here" "number") = false :=
  extract_answer_number_nomatch "no digits here" (by rfl)

/- ### Theorems for C4 (Question Interpreter) -/

/-- C4 (counterexample): on the response consisting of an empty JSON object
the interpreter returns the parsed empty object unchanged: no required field
is present, yet the default is not substituted, so the output is not fully
populated as claimed. -/
theorem parse_question_missing_fields_cex :
    parse_question_response "what" "\x7b\x7d" = Json.obj [] ∧
    fullyPopulated (parse_question_response "what" "\x7b\x7d") = false ∧
    fullyPopulated (defaultParsedQuestion "what") = true := ⟨rfl, rfl, rfl⟩

/-- C4 (amended): the interpreter's response handling is total (never
raises) and returns the full default exactly when JSON loading fails: with a
brace span it returns the loaded value unchanged, even when required fields
are missing, or the default on load failure; without a span it loads the
whole response the same way.  Field presence is never checked. -/
theorem parse_question_response_spec (q r : String) :
    (∀ sub, braceSpan r = some sub →
      (∀ v, json_loads sub = some v → parse_question_response q r = v) ∧
      (json_loads sub = none → parse_question_response q r = defaultParsedQuestion q)) ∧
    (braceSpan r = none →
      (∀ v, json_loads r = some v → parse_question_response q r = v) ∧
      (json_loads r = none → parse_question_response q r = defaultParsedQuestion q)) := by
  constructor
  · intro sub hsub
    constructor
    · intro v hv
      simp [parse_question_response, hsub, hv]
    · intro hv
      simp [parse_question_response, hsub, hv]
  · intro hnone
    constructor
    · intro v hv
      simp [parse_question_response, hnone, hv]
    · intro hv
      simp [parse_question_response, hnone, hv]

/-- C4 witness: a brace-free unparsable response yields the default
ParsedQuestion dict. -/
theorem parse_question_response_spec_witness :
    parse_question_response "Q" "hi" = defaultParsedQuestion "Q" :=
  ((parse_question_response_spec "Q" "hi").2 (by rfl)).2 (by rfl)

/- ### Theorems for C5 (Submitter failure handling) -/

/-- C5 (counterexample): when the transport fails with error text boom, the
submitter's verdict dict carries the text under the key error; the reason
field read downstream is absent, not the error text as claimed. -/
theorem submit_answer_reason_cex :
    verdictReason (submit_answer "e" "s" (Json.str "a") "http://q" "answer"
      (fun _ => Except.error "boom")) = none ∧
    jlookup (submit_answer "e" "s" (Json.str "a") "http://q" "answer"
      (fun _ => Except.error "boom")) "error" = some (Json.str "boom") := ⟨rfl, rfl⟩

/-- C5 (amended): every transport or decode failure is caught and converted
to the dict with correct False and the error text under the key error (not
reason); the resulting verdict is not correct, and no exception propagates
(the conversion is total for every error text). -/
theorem submit_answer_failure (email secret quiz_url key e : String) (answer : Json) :
    submit_answer email secret answer quiz_url key (fun _ => Except.error e) =
      Json.obj [("correct", Json.bool false), ("error", Json.str e)] ∧
    verdictCorrect (submit_answer email secret answer quiz_url key
      (fun _ => Except.error e)) = false ∧
    verdictReason (submit_answer email secret answer quiz_url key
      (fun _ => Except.error e)) = none := ⟨rfl, rfl, rfl⟩

/- ### Theorems for C6 and C7 (Question Extractor) -/

/-- C6: whenever the markup contains the decode marker and its first
captured payload decodes (base64, then UTF-8), the extractor returns exactly
the decoded text. -/
theorem extract_question_decodes_first (html m s : String)
    (h1 : (atobMatches html).head? = some m) (h2 : b64DecodeUtf8 m = some s) :
    extract_question_from_html html = s := by
  simp [extract_question_from_html, h1, h2]

/-- C6 witness: markup carrying an encoded Hello payload extracts to
Hello. -/
theorem extract_question_decodes_first_witness :
    extract_question_from_html "see atob(\"SGVsbG8=\") here" = "Hello" :=
  extract_question_decodes_first "see atob(\"SGVsbG8=\") here" "SGVsbG8=" "Hello"
    (by rfl) (by rfl)

/-- C7 (counterexample): on the empty markup the extractor returns the empty
string (all fallbacks miss and the 2000-character prefix of nothing is
empty), refuting the claim that the result is always non-empty. -/
theorem extract_question_empty_cex :
    extract_question_from_html "" = "" := rfl

/-- Whatever a fallback tier returns passed the strictly-greater-than-ten
length guard. -/
theorem tierText_big (g : Option String) (t : String) (h : tierText g = some t) :
    10 < t.length := by
  cases g with
  | none => exact absurd h (by simp [tierText])
  | some inner =>
    simp only [tierText] at h
    by_cases hc : 10 < (pyStrip (collapseWs (stripTags inner))).length
    · rw [if_pos hc] at h
      injection h with h2
      rw [← h2]
      exact hc
    · rw [if_neg hc] at h
      exact Option.noConfusion h

/-- A string longer than ten characters is non-empty. -/
theorem big_ne_empty (t : String) (h : 10 < t.length) : t ≠ "" := by
  intro he
  rw [he] at h
  exact absurd h (by decide)

/-- The 2000-character prefix of a non-empty string is non-empty. -/
theorem takeChars_ne_empty (html : String) (h : html ≠ "") :
    takeChars 2000 html ≠ "" := by
  intro he
  apply h
  have hlen : (takeChars 2000 html).length = 0 := by rw [he]; rfl
  have h1 : (html.toList.take 2000).length = 0 := hlen
  rw [List.length_take] at h1
  have h2 : html.toList.length = 0 := by omega
  have h3 : html.toList = [] := List.length_eq_zero.mp h2
  cases html with
  | mk data =>
    have hdata : data = [] := h3
    rw [hdata]

/-- The fallback chain of the extractor returns a non-empty string on
non-empty markup: each container tier is guarded by the length check and the
final tier is a prefix of the markup itself. -/
theorem extractFallback_ne (html : String) (h : html ≠ "") :
    extractFallback html ≠ "" := by
  unfold extractFallback
  cases h1 : tierText (searchDivResult html) with
  | some t => exact big_ne_empty t (tierText_big _ t h1)
  | none =>
    cases h2 : tierText (searchDivQuestion html) with
    | some t => exact big_ne_empty t (tierText_big _ t h2)
    | none =>
      cases h3 : tierText (searchBody html) with
      | some t => exact big_ne_empty t (tierText_big _ t h3)
      | none => exact takeChars_ne_empty html h

/-- C7 (amended): the extractor is total (never raises: every branch is a
defined value) and on non-empty markup returns a non-empty string in every
case except when the decode step itself succeeds on the first captured
payload with an empty decoded text (for example an encoded empty string),
in which case that empty decode is returned. -/
theorem extract_question_nonempty (html : String) (h : html ≠ "") :
    extract_question_from_html html ≠ "" ∨
      ∃ m, (atobMatches html).head? = some m ∧ b64DecodeUtf8 m = some "" := by
  cases hm : (atobMatches html).head? with
  | none =>
    left
    simp only [extract_question_from_html, hm]
    exact extractFallback_ne html h
  | some m =>
    cases hd : b64DecodeUtf8 m with
    | none =>
      left
      simp only [extract_question_from_html, hm, hd]
      exact extractFallback_ne html h
    | some dec =>
      by_cases hdec : dec = ""
      · right
        exact ⟨m, rfl, by rw [hd, hdec]⟩
      · left
        simp only [extract_question_from_html, hm, hd]
        exact hdec

/-- C7 witness: a concrete non-empty markup without markers extracts to a
non-empty string (through the raw-prefix fallback). -/
theorem extract_question_nonempty_witness :
    extract_question_from_html "x" ≠ "" ∨
      ∃ m, (atobMatches "x").head? = some m ∧ b64DecodeUtf8 m = some "" :=
  extract_question_nonempty "x" (by decide)

/- ### Theorem for C8 (boolean extraction) -/

/-- C8: the boolean rule returns true exactly when the lowercased response
contains true or yes as a substring and false otherwise; in particular the
two spec examples extract to true and to false. -/
theorem extract_answer_boolean_spec :
    (∀ response : String,
      extract_answer response "boolean" =
        Answer.bool (pyIn "true" (pyLower response) || pyIn "yes" (pyLower response))) ∧
    extract_answer "The result is True." "boolean" = Answer.bool true ∧
    extract_answer "No, it is not." "boolean" = Answer.bool false := by
  refine ⟨?_, rfl, rfl⟩
  intro response
  cases hb : (pyIn "true" (pyLower response) || pyIn "yes" (pyLower response)) with
  | true => simp [extract_answer, hb]
  | false => simp [extract_answer, hb]

/- ### Theorems for C9 (JSON extraction) -/

/-- C9 (counterexample): on a response with two separate balanced regions
the code's greedy span runs from the first opening brace to the last closing
brace, fails to load as JSON, and falls through to the string rule, whereas
the first balanced region of the spec's rule loads to the empty object. -/
theorem extract_answer_json_cex :
    extract_answer "x\x7b\x7dy\x7b\x7dz" "json" = Answer.str "x\x7b\x7dy\x7b\x7dz" ∧
    braceSpan "x\x7b\x7dy\x7b\x7dz" = some "\x7b\x7dy\x7b\x7d" ∧
    (spec_firstBalancedRegion "x\x7b\x7dy\x7b\x7dz").bind json_loads =
      some (Json.obj []) := ⟨rfl, rfl, rfl⟩

/-- C9 (amended): JSON extraction takes the greedy span from the first
opening brace to the last closing brace of the response (not the first
balanced region) and loads it; for the json answer format, when the span is
absent or fails to load, the result falls through to the string rule (the
trimmed response).  The two rules agree when the response contains exactly
one balanced region, as in the witness.  parse_question_response applies the
same span rule to the interpreter response. -/
theorem extract_answer_json_spec (r : String) :
    (∀ sub, braceSpan r = some sub →
      (∀ v, json_loads sub = some v → extract_answer r "json" = Answer.json v) ∧
      (json_loads sub = none → extract_answer r "json" = Answer.str (pyStrip r))) ∧
    (braceSpan r = none → extract_answer r "json" = Answer.str (pyStrip r)) := by
  constructor
  · intro sub hsub
    constructor
    · intro v hv
      simp [extract_answer, hsub, hv]
    · intro hv
      simp [extract_answer, hsub, hv]
  · intro hnone
    simp [extract_answer, hnone]

/-- C9 witness: a response wrapping a single JSON object in prose extracts
to that object. -/
theorem extract_answer_json_spec_witness :
    extract_answer "a\x7b\"k\": 1\x7db" "json" =
      Answer.json (Json.obj [("k", Json.num_int 1)]) :=
  ((extract_answer_json_spec "a\x7b\"k\": 1\x7db").1 "\x7b\"k\": 1\x7d" (by rfl)).1
    (Json.obj [("k", Json.num_int 1)]) (by rfl)

/- ### Theorem for C10 (payload key collision) -/

/-- C10: when the answer key equals one of the identity keys email, secret
or url, the posted payload dict binds that key exactly once, to the answer
value: the identity or quiz-URL value is overwritten in place and not
sent. -/
theorem buildPayload_identity_key (email secret quiz_url k : String) (answer : Json)
    (h : k = "email" ∨ k = "secret" ∨ k = "url") :
    countKey (buildPayload email secret quiz_url k answer) k = 1 ∧
    lookupKv (buildPayload email secret quiz_url k answer) k = some answer := by
  rcases h with h | h | h <;> subst h <;> exact ⟨rfl, rfl⟩

/-- C10 witness: with the answer key email, the payload binds email once, to
the answer, and keeps secret and url. -/
theorem buildPayload_identity_key_witness :
    countKey (buildPayload "a@b" "sec" "http://q" "email" (Json.str "ans")) "email" = 1 ∧
    lookupKv (buildPayload "a@b" "sec" "http://q" "email" (Json.str "ans")) "email" =
      some (Json.str "ans") :=
  buildPayload_identity_key "a@b" "sec" "http://q" "email" (Json.str "ans") (Or.inl rfl)
